import Mathlib

/-!
Shallow embedding of `src/http_server_rcu.c` (a Linux kernel module that
serves a payload under RCU protection) together with proofs of the spec's
claims about it.

The C code keeps three RCU-protected snapshots in a global `struct server`:
`web_data` (the payload, an `int message`), `state` (a `bool is_in_recovery`),
and `update_timestamp` (an `int time`).  Writers are `set_mode_recovery`,
`recover_server`, `updater_thread` and the per-cycle body of
`recover_system_thread`.  We embed each writer as a pure function on a
`Server` record; besides the new server value each writer also returns the
list of publication events it performed (reference exchanges, in-place field
mutations, retirements through `kfree_rcu`), so that claims about *how* a
value was published (exchange vs. in-place mutation, retirement or not) are
statable.  Machine arithmetic on the C `int` fields is modelled on `Int`
with explicit definedness: operations whose C semantics is undefined
behaviour (signed overflow, oversized shift) return `none`.
-/

namespace HttpServerRcu

/-- Smallest value of a 32-bit C `int`. -/
def intMin : Int := -(2 ^ 31)

/-- Largest value of a 32-bit C `int`. -/
def intMax : Int := 2 ^ 31 - 1

/-- C signed addition `a + b` on 32-bit `int`: defined iff the mathematical
sum is representable (signed overflow is undefined behaviour). -/
def cAdd (a b : Int) : Option Int :=
  if intMin ≤ a + b ∧ a + b ≤ intMax then some (a + b) else none

/-- C left shift `1 << m` on 32-bit signed `int` (line 193 of the source):
defined iff `0 ≤ m ≤ 30` — the shift count must be in `[0, 32)` and the
result `2 ^ m` must be representable in `int` (C11 6.5.7p4), which caps `m`
at 30.  Outside that range the C expression is undefined behaviour, modelled
as `none`. -/
def cShl1 (m : Int) : Option Int :=
  if 0 ≤ m ∧ m ≤ 30 then some (2 ^ m.toNat) else none

/-- Two's complement 32-bit pattern of an `int` value. -/
def toPat (n : Int) : Nat := (n % (2 ^ 32)).toNat

/-- Signed `int` value of a 32-bit pattern. -/
def ofPat (p : Nat) : Int := if p < 2 ^ 31 then (p : Int) else (p : Int) - 2 ^ 32

/-- C bitwise XOR `a ^ b` on `int`, via two's complement patterns; defined
for every pair of `int` values. -/
def cXor (a b : Int) : Int := ofPat (Nat.xor (toPat a) (toPat b))

/-- The `-ENOMEM` error magnitude returned on allocation failure. -/
def ENOMEM : Int := 12

/-- The C `struct web_data` (the payload): the semantic field `message`;
the embedded `struct rcu_head` is bookkeeping for `kfree_rcu` and carries
no value. -/
structure web_data where
  message : Int
deriving Repr, DecidableEq

/-- The C `struct state` (the operational state): `is_in_recovery`. -/
structure state where
  is_in_recovery : Bool
deriving Repr, DecidableEq

/-- The C `struct time` (the clock): `time`. -/
structure time where
  time : Int
deriving Repr, DecidableEq

/-- The three currently-published snapshots of `struct server` (the
`clients` list is thread bookkeeping with no shared-state semantics). -/
structure Server where
  web_data : web_data
  state : state
  update_timestamp : time
deriving Repr, DecidableEq

/-- Publication events a writer can perform on the shared snapshots:
`rcu_assign_pointer` exchanges, in-place field writes on an
already-published instance, and deferred frees via `kfree_rcu`. -/
inductive Ev where
  | exchangeState (old new : state)
  | mutateStateInPlace
  | exchangeWebData (old new : web_data)
  | mutateTimeInPlace
  | retireWebData (old : web_data)
  | retireState (old : state)
deriving Repr, DecidableEq

/-- Whether an event is an exchange of the operational-state reference. -/
def Ev.isExchangeState : Ev → Bool
  | .exchangeState _ _ => true
  | _ => false

/-- Whether an event is an in-place write to the published operational
state. -/
def Ev.isMutateState : Ev → Bool
  | .mutateStateInPlace => true
  | _ => false

/-- Whether an event retires (defers the free of) some instance. -/
def Ev.isRetireEv : Ev → Bool
  | .retireWebData _ => true
  | .retireState _ => true
  | _ => false

/-- Whether an event retires a payload instance. -/
def Ev.isRetireWebData : Ev → Bool
  | .retireWebData _ => true
  | _ => false

/-- Whether an event exchanges the payload reference. -/
def Ev.isExchangeWebData : Ev → Bool
  | .exchangeWebData _ _ => true
  | _ => false

/-- Models `set_mode_recovery` (source lines 158-172): under `state_mutex`,
read the current state; if its flag already equals `flag`, return without
doing anything; otherwise write the flag of the *published* instance in
place (`current_state->is_in_recovery = flag`).  No allocation, no
`rcu_assign_pointer`, no `kfree_rcu` occurs on either path. -/
def set_mode_recovery (s : Server) (flag : Bool) : Server × List Ev :=
  if s.state.is_in_recovery = flag then
    (s, [])
  else
    ({ s with state := ⟨flag⟩ }, [Ev.mutateStateInPlace])

/-- Models `recover_server` (source lines 174-227): under `server_mutex`,
read the current payload; `kmalloc` a replacement (`allocOk` models its
success); on allocation failure unlock and return `-ENOMEM` with nothing
changed.  Otherwise set the new payload's message to `1 << old.message`,
exchange the payload reference, sleep, then write `old.message ^ time` into
the published timestamp in place — `old.message` is the value read under
this same lock acquisition, through the still-valid old payload pointer
(`s.web_data` below, the pre-exchange payload), not re-read after the
exchange — unlock, and retire the old payload with `kfree_rcu`.  Returns
`none` when the shift is undefined behaviour, otherwise
`some (return code, new server, events)`. -/
def recover_server (allocOk : Bool) (s : Server) :
    Option (Int × Server × List Ev) :=
  if allocOk = false then
    some (-ENOMEM, s, [])
  else
    match cShl1 s.web_data.message with
    | none => none
    | some v =>
      some (0,
        { s with web_data := ⟨v⟩,
                 update_timestamp :=
                   ⟨cXor s.web_data.message s.update_timestamp.time⟩ },
        [Ev.exchangeWebData s.web_data ⟨v⟩, Ev.mutateTimeInPlace,
         Ev.retireWebData s.web_data])

/-- Models `updater_thread` (source lines 286-322), the single productive
pass of the background updater: first, inside a read-side critical section,
inspect `state->is_in_recovery`; if set, exit without touching the payload.
Otherwise, under `server_mutex`, read the current payload, `kmalloc` a
replacement (failure returns `-ENOMEM` with nothing changed), set its
message to `old.message + 3`, exchange the payload reference, unlock, and
retire the old payload with `kfree_rcu`; then park until stopped.  Returns
`none` when the increment overflows (undefined behaviour). -/
def updater_thread (allocOk : Bool) (s : Server) :
    Option (Int × Server × List Ev) :=
  if s.state.is_in_recovery then
    some (0, s, [])
  else if allocOk = false then
    some (-ENOMEM, s, [])
  else
    match cAdd s.web_data.message 3 with
    | none => none
    | some v =>
      some (0, { s with web_data := ⟨v⟩ },
        [Ev.exchangeWebData s.web_data ⟨v⟩,
         Ev.retireWebData s.web_data])

/-- One loop iteration of `recover_system_thread` (source lines 242-284),
omitting the sleeps and log lines: `set_mode_recovery(true)`,
`synchronize_rcu()`, `recover_server()` — whose return value the caller
discards — then `set_mode_recovery(false)` unconditionally. -/
def recovery_cycle (allocOk : Bool) (s : Server) :
    Option (Server × List Ev) :=
  match recover_server allocOk (set_mode_recovery s true).1 with
  | none => none
  | some (_code, s2, e2) =>
    some ((set_mode_recovery s2 false).1,
      (set_mode_recovery s true).2 ++ e2 ++ (set_mode_recovery s2 false).2)

/-- The server as published by a fully successful `initialize_server`:
`message = 0`, `is_in_recovery = false`, `time = 0`. -/
def initServer : Server := ⟨⟨0⟩, ⟨false⟩, ⟨0⟩⟩

/-- The three snapshot references of `struct server` during initialization:
each is `none` (NULL, as in the zero-initialized file-scope `server`) until
its initializer publishes an instance with `rcu_assign_pointer`. -/
structure ServerRefs where
  web_data : Option web_data
  state : Option state
  update_timestamp : Option time
deriving Repr, DecidableEq

/-- All three references NULL, the state before `initialize_server`. -/
def emptyRefs : ServerRefs := ⟨none, none, none⟩

/-- The partially-initialized reference set that `initialize_server` leaves
behind when the Payload allocation succeeds but the OperationalState
allocation fails: the Payload is published, the other two references are
NULL. -/
def partialRefs : ServerRefs := ⟨some ⟨0⟩, none, none⟩

/-- Models `initialize_web_data` (source lines 81-96): `kmalloc` a payload
(`ok` models success; failure returns `-ENOMEM` publishing nothing), set
`message = 0`, publish it with `rcu_assign_pointer`. -/
def initialize_web_data (ok : Bool) (s : ServerRefs) : Int × ServerRefs :=
  if ok then (0, { s with web_data := some ⟨0⟩ }) else (-ENOMEM, s)

/-- Models `initialize_state` (source lines 64-79): `kmalloc` a state
(failure returns `-ENOMEM` publishing nothing), set
`is_in_recovery = false`, publish it. -/
def initialize_state (ok : Bool) (s : ServerRefs) : Int × ServerRefs :=
  if ok then (0, { s with state := some ⟨false⟩ }) else (-ENOMEM, s)

/-- Models `initialize_time` (source lines 48-62): `kmalloc` a clock
(failure returns `-ENOMEM` publishing nothing), set `time = 0`, publish
it. -/
def initialize_time (ok : Bool) (s : ServerRefs) : Int × ServerRefs :=
  if ok then (0, { s with update_timestamp := some ⟨0⟩ }) else (-ENOMEM, s)

/-- Models `initialize_server` (source lines 98-116): run
`initialize_web_data`, `initialize_state`, `initialize_time` in that order;
on the first failure jump to the `err` label, which returns the error code
without undoing the publications already made. -/
def initialize_server (okW okS okT : Bool) (s : ServerRefs) :
    Int × ServerRefs :=
  let r1 := initialize_web_data okW s
  if r1.1 ≠ 0 then r1
  else
    let r2 := initialize_state okS r1.2
    if r2.1 ≠ 0 then r2
    else initialize_time okT r2.2

/-- Modelled from the spec: the grace-period barrier of §4.2 and the
read-side critical sections of §4.3.  The kernel primitives that implement
them (`rcu_read_lock`/`rcu_read_unlock`, `synchronize_rcu`, `kfree_rcu`) are
not part of `src/`; only their contract is specified: "retire(oldInstance)
defers destruction until every read-side critical section that was active at
the moment retire was called has ended; critical sections that start
afterward are irrelevant".  A system history is a list of events over
abstract instance ids: a reader entering or leaving its critical section, a
writer exchanging the published reference, retiring an instance, and the
deferred free actually destroying it. -/
inductive RcuEv where
  | enter (r : Nat)
  | exit (r : Nat)
  | exchange (old new : Nat)
  | retire (o : Nat)
  | free (o : Nat)
deriving Repr, DecidableEq

/-- Modelled from the spec: effect of one event on whether reader `r` is
inside a read-side critical section. -/
def stepActive (r : Nat) (b : Bool) : RcuEv → Bool
  | .enter q => if q = r then true else b
  | .exit q => if q = r then false else b
  | _ => b

/-- Modelled from the spec: whether reader `r` is inside a read-side
critical section after the history `evs`. -/
def activeAfter (r : Nat) (evs : List RcuEv) : Bool :=
  evs.foldl (stepActive r) false

/-- Modelled from the spec: the currently-published instance id after the
history `evs`, starting from the initially-published id `p`. -/
def pubAfter (p : Nat) (evs : List RcuEv) : Nat :=
  evs.foldl (fun c e => match e with | .exchange _ n => n | _ => c) p

/-- Modelled from the spec: the grace-period barrier contract of §4.2.  A
history obeys the barrier iff every `free o` (at position `i`) is preceded
by a `retire o` (at some position `j < i`) such that every reader that was
inside a critical section at the moment of the retire has exited strictly
between the retire and the free. -/
def validBarrier (evs : List RcuEv) : Prop :=
  ∀ i o, evs[i]? = some (RcuEv.free o) →
    ∃ j, j < i ∧ evs[j]? = some (RcuEv.retire o) ∧
      ∀ r, activeAfter r (evs.take j) = true →
        ∃ k, j < k ∧ k < i ∧ evs[k]? = some (RcuEv.exit r)

/-- A concrete barrier-obeying history: reader 0 enters and captures the
published instance 1, the writer exchanges 1 for 2 and retires 1, reader 0
exits, and only then is instance 1 freed. -/
def wTrace : List RcuEv :=
  [RcuEv.enter 0, RcuEv.exchange 1 2, RcuEv.retire 1, RcuEv.exit 0,
   RcuEv.free 1]

/-! ## Helper lemmas -/

/-- Inversion for the machine shift: a defined `1 << m` forces the
precondition `0 ≤ m ≤ 30` and yields exactly `2 ^ m`. -/
theorem cShl1_eq_some {m v : Int} (h : cShl1 m = some v) :
    (0 ≤ m ∧ m ≤ 30) ∧ v = 2 ^ m.toNat := by
  unfold cShl1 at h
  split at h
  · exact ⟨by assumption, (Option.some.injEq _ _ ▸ h).symm⟩
  · exact Option.noConfusion h

/-- Inversion for machine addition: a defined `a + b` is the mathematical
sum. -/
theorem cAdd_eq_some {a b v : Int} (h : cAdd a b = some v) : v = a + b := by
  unfold cAdd at h
  split at h
  · exact (Option.some.injEq _ _ ▸ h).symm
  · exact Option.noConfusion h

/-- Folding a reader's activity over an appended history. -/
theorem activeAfter_append (r : Nat) (l1 l2 : List RcuEv) :
    activeAfter r (l1 ++ l2) = l2.foldl (stepActive r) (activeAfter r l1) := by
  unfold activeAfter
  rw [List.foldl_append]

/-- A reader that entered its critical section at position `e` and has not
exited by position `j` is still active after the first `j` events. -/
theorem activeAfter_of_enter (evs : List RcuEv) (r e : Nat)
    (henter : evs[e]? = some (RcuEv.enter r)) :
    ∀ j, e < j → (∀ k, e < k → k < j → evs[k]? ≠ some (RcuEv.exit r)) →
      activeAfter r (evs.take j) = true := by
  intro j
  induction j with
  | zero => intro h; exact absurd h (Nat.not_lt_zero e)
  | succ j ih =>
    intro hej hnoexit
    by_cases hc : e < j
    · have hprev := ih hc (fun k h1 h2 => hnoexit k h1 (Nat.lt_succ_of_lt h2))
      cases hj : evs[j]? with
      | none =>
        have hlen : evs.length ≤ j := by
          by_contra hlt
          push_neg at hlt
          rw [List.getElem?_eq_getElem hlt] at hj
          exact Option.noConfusion hj
        rw [List.take_of_length_le (Nat.le_succ_of_le hlen)]
        rw [List.take_of_length_le hlen] at hprev
        exact hprev
      | some ev =>
        have ht : evs.take (j + 1) = evs.take j ++ [ev] := by
          rw [List.take_succ, hj]
          rfl
        rw [ht, activeAfter_append, hprev]
        show stepActive r true ev = true
        cases ev with
        | enter q => simp [stepActive]
        | exit q =>
          show (if q = r then false else true) = true
          rw [if_neg]
          intro hqr
          subst hqr
          exact hnoexit j hc (Nat.lt_succ_self j) hj
        | exchange a b => rfl
        | retire o => rfl
        | free o => rfl
    · have hje : j = e := by omega
      subst hje
      have ht : evs.take (j + 1) = evs.take j ++ [RcuEv.enter r] := by
        rw [List.take_succ, henter]
        rfl
      rw [ht, activeAfter_append]
      show stepActive r (activeAfter r (evs.take j)) (RcuEv.enter r) = true
      simp [stepActive]

/-- The concrete history `wTrace` obeys the grace-period barrier
contract. -/
theorem wTrace_valid : validBarrier wTrace := by
  intro i o h
  have hi : i < 5 := by
    by_contra hge
    push_neg at hge
    rw [List.getElem?_eq_none (by simpa [wTrace] using hge)] at h
    exact Option.noConfusion h
  interval_cases i
  · simp [wTrace] at h
  · simp [wTrace] at h
  · simp [wTrace] at h
  · simp [wTrace] at h
  · simp [wTrace] at h
    subst h
    refine ⟨2, by omega, by decide, ?_⟩
    intro r hr
    have hr0 : r = 0 := by
      by_cases h0 : r = 0
      · exact h0
      · exfalso
        rw [show wTrace.take 2 = [RcuEv.enter 0, RcuEv.exchange 1 2] from rfl] at hr
        simp [activeAfter, stepActive, Ne.symm h0] at hr
    subst hr0
    exact ⟨3, by omega, by omega, by decide⟩

/-! ## The claims -/

/-- C1 (counterexample): on the initial server, setting recovery mode to
`true` changes the recovery flag, yet the operation mutates the published
OperationalState in place and performs no exchange and no retirement —
refuting the claim that every flag-changing operation publishes a freshly
constructed instance by exchange and never mutates in place. -/
theorem set_mode_recovery_cex :
    (set_mode_recovery initServer true).1.state.is_in_recovery
        ≠ initServer.state.is_in_recovery ∧
    (set_mode_recovery initServer true).2.any Ev.isMutateState = true ∧
    (set_mode_recovery initServer true).2.any Ev.isExchangeState = false ∧
    (set_mode_recovery initServer true).2.any Ev.isRetireEv = false := by
  decide

/-- C1 (amended): every operation that changes the recovery flag does so by
mutating the `is_in_recovery` field of the already-published
OperationalState instance in place under the state lock; it constructs no
new instance, performs no exchange, and retires nothing. -/
theorem set_mode_recovery_in_place (s : Server) (flag : Bool)
    (h : s.state.is_in_recovery ≠ flag) :
    set_mode_recovery s flag =
      ({ s with state := ⟨flag⟩ }, [Ev.mutateStateInPlace]) := by
  unfold set_mode_recovery
  rw [if_neg h]

/-- C1 (witness): the amended statement at the initial server and flag
`true`. -/
theorem set_mode_recovery_in_place_witness :
    set_mode_recovery initServer true =
      ({ initServer with state := ⟨true⟩ }, [Ev.mutateStateInPlace]) :=
  set_mode_recovery_in_place initServer true (by decide)

/-- C2: a successful recovery transform (return code 0) publishes
`2 ^ m` as the payload message and `m XOR t` as the clock value, where `m`
and `t` are the pre-transform payload message and clock value read under
the write-lock before the payload exchange. -/
theorem recover_server_transform (allocOk : Bool) (s s' : Server)
    (evs : List Ev) (h : recover_server allocOk s = some (0, s', evs)) :
    s'.web_data.message = 2 ^ s.web_data.message.toNat ∧
    s'.update_timestamp.time =
      cXor s.web_data.message s.update_timestamp.time := by
  unfold recover_server at h
  split at h
  · simp only [Option.some.injEq, Prod.mk.injEq] at h
    exact absurd h.1 (by decide)
  · split at h
    · exact Option.noConfusion h
    · rename_i v hv
      simp only [Option.some.injEq, Prod.mk.injEq] at h
      obtain ⟨-, hs, -⟩ := h
      subst hs
      exact ⟨(cShl1_eq_some hv).2, rfl⟩

/-- C2 (witness): the transform evaluated at payload message 3 and clock
0. -/
theorem recover_server_transform_witness :
    (8 : Int) = 2 ^ ((3 : Int)).toNat ∧ (3 : Int) = cXor 3 0 :=
  recover_server_transform true ⟨⟨3⟩, ⟨false⟩, ⟨0⟩⟩ ⟨⟨8⟩, ⟨false⟩, ⟨3⟩⟩
    [Ev.exchangeWebData ⟨3⟩ ⟨8⟩, Ev.mutateTimeInPlace, Ev.retireWebData ⟨3⟩]
    (by decide)

/-- C3: the background updater's single run first inspects the recovery
flag: if recovering it performs no payload update and publishes nothing;
otherwise, when it completes successfully, it has replaced the payload by a
new instance whose message is the old message plus 3, left state and clock
untouched, and exchanged-in the new payload while retiring the old one. -/
theorem updater_thread_run (allocOk : Bool) (s : Server) :
    (s.state.is_in_recovery = true →
      updater_thread allocOk s = some (0, s, [])) ∧
    (s.state.is_in_recovery = false →
      ∀ s' evs, updater_thread allocOk s = some (0, s', evs) →
        s'.web_data.message = s.web_data.message + 3 ∧
        s'.state = s.state ∧
        s'.update_timestamp = s.update_timestamp ∧
        evs = [Ev.exchangeWebData s.web_data s'.web_data,
               Ev.retireWebData s.web_data]) := by
  constructor
  · intro h
    simp [updater_thread, h]
  · intro h s' evs heq
    simp only [updater_thread, h, Bool.false_eq_true, if_false] at heq
    split at heq
    · simp only [Option.some.injEq, Prod.mk.injEq] at heq
      exact absurd heq.1 (by decide)
    · split at heq
      · exact Option.noConfusion heq
      · rename_i v hv
        simp only [Option.some.injEq, Prod.mk.injEq] at heq
        obtain ⟨-, hs, he⟩ := heq
        subst hs
        subst he
        exact ⟨cAdd_eq_some hv, rfl, rfl, rfl⟩

/-- C3 (witness): both branches evaluated — a recovering server is left
unchanged, and from the initial server the updater publishes message 3 with
an exchange and a retirement. -/
theorem updater_thread_run_witness :
    updater_thread true ⟨⟨0⟩, ⟨true⟩, ⟨0⟩⟩ =
      some (0, ⟨⟨0⟩, ⟨true⟩, ⟨0⟩⟩, []) ∧
    ((3 : Int) = 0 + 3 ∧
      (⟨false⟩ : state) = ⟨false⟩ ∧ (⟨0⟩ : time) = ⟨0⟩ ∧
      [Ev.exchangeWebData ⟨0⟩ ⟨3⟩, Ev.retireWebData ⟨0⟩] =
        [Ev.exchangeWebData ⟨0⟩ ⟨3⟩, Ev.retireWebData ⟨0⟩]) :=
  ⟨(updater_thread_run true ⟨⟨0⟩, ⟨true⟩, ⟨0⟩⟩).1 rfl,
   (updater_thread_run true initServer).2 rfl ⟨⟨3⟩, ⟨false⟩, ⟨0⟩⟩
     [Ev.exchangeWebData ⟨0⟩ ⟨3⟩, Ev.retireWebData ⟨0⟩] (by decide)⟩

/-- C4: from the initial state (message 0, time 0, not recovering), one
updater pass publishes message 3, and a subsequent full recovery cycle
publishes message 8 = 2 ^ 3 and clock 3 = 3 XOR 0 with the recovery flag
false at the end. -/
theorem end_to_end_cycle :
    updater_thread true initServer =
      some (0, ⟨⟨3⟩, ⟨false⟩, ⟨0⟩⟩,
        [Ev.exchangeWebData ⟨0⟩ ⟨3⟩, Ev.retireWebData ⟨0⟩]) ∧
    (recovery_cycle true ⟨⟨3⟩, ⟨false⟩, ⟨0⟩⟩).map (fun p => p.1) =
      some ⟨⟨8⟩, ⟨false⟩, ⟨3⟩⟩ := by
  decide

/-- C5 (code evaluated at the failing input): when the Payload allocation
succeeds but the OperationalState allocation fails, `initialize_server`
reports `-ENOMEM` yet leaves the Payload reference published while the
other two references stay NULL — a partially-initialized outcome, neither
all three references set nor none of them. -/
theorem initialize_server_partial :
    initialize_server true false true emptyRefs = (-ENOMEM, partialRefs) ∧
    partialRefs.web_data.isSome = true ∧
    partialRefs.state = none ∧
    partialRefs.update_timestamp = none := by
  decide

/-- C6: when allocating the replacement payload fails, both the recovery
transform and the updater return `-ENOMEM` to their caller with the
published Payload, OperationalState and Clock untouched and no event — no
exchange and no retirement — performed. -/
theorem alloc_failure_atomic (s : Server) :
    recover_server false s = some (-ENOMEM, s, []) ∧
    (s.state.is_in_recovery = false →
      updater_thread false s = some (-ENOMEM, s, [])) := by
  constructor
  · rfl
  · intro h
    simp [updater_thread, h]

/-- C6 (witness): allocation failure at the initial server. -/
theorem alloc_failure_atomic_witness :
    recover_server false initServer = some (-ENOMEM, initServer, []) ∧
    updater_thread false initServer = some (-ENOMEM, initServer, []) :=
  ⟨(alloc_failure_atomic initServer).1, (alloc_failure_atomic initServer).2 rfl⟩

/-- C7: calling `set_mode_recovery` with the value the recovery flag
already holds leaves the published OperationalState unchanged and performs
no exchange and no retirement (the empty event list). -/
theorem set_mode_recovery_idempotent (s : Server) (f : Bool)
    (h : s.state.is_in_recovery = f) :
    set_mode_recovery s f = (s, []) := by
  unfold set_mode_recovery
  rw [if_pos h]

/-- C7 (witness): the idempotent call on the initial (not recovering)
server with `false`. -/
theorem set_mode_recovery_idempotent_witness :
    set_mode_recovery initServer false = (initServer, []) :=
  set_mode_recovery_idempotent initServer false rfl

/-- C9: even when the payload transform fails with an allocation error, the
recovery cycle ends with `recovering = false` published, the old payload
and clock untouched, and no retirement and no payload exchange having
happened — the failure leaves no mark on the published state. -/
theorem failed_recovery_clears_flag (s : Server) :
    ∃ evs, recovery_cycle false s = some ({ s with state := ⟨false⟩ }, evs) ∧
      evs.any Ev.isRetireEv = false ∧
      evs.any Ev.isExchangeWebData = false := by
  rcases s with ⟨w, ⟨b⟩, t⟩
  cases b
  · exact ⟨[Ev.mutateStateInPlace, Ev.mutateStateInPlace], rfl, rfl, rfl⟩
  · exact ⟨[Ev.mutateStateInPlace], rfl, rfl, rfl⟩

/-- C10: the recovery transform realizes `2 ^ m` as the machine shift
`1 << m`, defined exactly for `0 ≤ m ≤ 30` where it equals the
mathematical power; a second consecutive recovery cycle from message 8
publishes 256, and a third — a shift by 256, whose mathematical value
exceeds `intMax` — has no defined result. -/
theorem shift_is_machine_bounded :
    (∀ m v : Int, cShl1 m = some v → (0 ≤ m ∧ m ≤ 30) ∧ v = 2 ^ m.toNat) ∧
    (recovery_cycle true ⟨⟨8⟩, ⟨false⟩, ⟨3⟩⟩).map
        (fun p => p.1.web_data.message) = some 256 ∧
    recovery_cycle true ⟨⟨256⟩, ⟨false⟩, ⟨11⟩⟩ = none ∧
    intMax < 2 ^ (256 : Nat) :=
  ⟨fun _ _ h => cShl1_eq_some h, by decide, by decide, by norm_num [intMax]⟩

/-- C10 (witness): the shift inversion evaluated at `m = 3`. -/
theorem shift_is_machine_bounded_witness :
    ((0 : Int) ≤ 3 ∧ (3 : Int) ≤ 30) ∧ (8 : Int) = 2 ^ ((3 : Int)).toNat :=
  shift_is_machine_bounded.1 3 8 (by decide)

/-- C8: in every barrier-obeying history, an instance that a reader
captured at the start of its read-side critical section (the instance
published when it entered, hence not yet retired) is not freed at any point
the reader is still inside the section, even if a writer exchanges and
retires it concurrently: the barrier defers the free past the reader's
exit. -/
theorem reader_reference_not_freed (evs : List RcuEv) (p0 r e i o : Nat)
    (hvalid : validBarrier evs)
    (henter : evs[e]? = some (RcuEv.enter r))
    (_hcap : o = pubAfter p0 (evs.take e))
    (hlive : ∀ j, j < e → evs[j]? ≠ some (RcuEv.retire o))
    (hsection : ∀ k, e < k → k < i → evs[k]? ≠ some (RcuEv.exit r)) :
    evs[i]? ≠ some (RcuEv.free o) := by
  intro hfree
  obtain ⟨j, hji, hret, hgrace⟩ := hvalid i o hfree
  have hej : e < j := by
    rcases Nat.lt_trichotomy j e with hlt | heq | hgt
    · exact absurd hret (hlive j hlt)
    · rw [heq, henter] at hret
      exact absurd (Option.some.injEq _ _ ▸ hret) (by simp)
    · exact hgt
  have hact : activeAfter r (evs.take j) = true :=
    activeAfter_of_enter evs r e henter j hej
      (fun k h1 h2 => hsection k h1 (h2.trans hji))
  obtain ⟨k, hjk, hki, hexit⟩ := hgrace r hact
  exact hsection k (hej.trans hjk) hki hexit

/-- C8 (witness): in the concrete barrier-obeying history `wTrace`, reader
0 enters at position 0 capturing the published instance 1; the writer
exchanges and retires instance 1 while the reader is still inside its
section, and indeed position 3 — still inside the section — does not free
instance 1. -/
theorem reader_reference_not_freed_witness :
    wTrace[3]? ≠ some (RcuEv.free 1) :=
  reader_reference_not_freed wTrace 1 0 0 3 1 wTrace_valid (by decide)
    (by decide) (fun j hj => absurd hj (Nat.not_lt_zero j))
    (fun k h1 h2 => by interval_cases k <;> decide)

end HttpServerRcu
